import Mathlib

/-!
Shallow embedding of the research agent in
`backend/src/agent/graph.py` and `backend/src/agent/utils.py`,
together with proofs about its orchestration loop, dispatch indexing,
search-task runner, citation post-processing and source collection.

External capabilities (the HTTP search API and the language-model calls)
are opaque: each is modelled by an explicit outcome value handed to the
embedded function (success payload or raised exception), exactly at the
call sites where the Python code consumes them.
-/

namespace Agent

/-- A Python dict describing one source, as consumed by
`insert_citation_markers` and `finalize_answer`: each key may be absent,
mirroring `source.get(key, default)` access. -/
structure SourceDict where
  title : Option String := none
  url : Option String := none
  snippet : Option String := none
deriving DecidableEq, Repr

/-- The left-to-right scan of Python `s.replace(pat, repl)` on character
lists: at each position, if `pat` matches, emit `repl` and jump past the
match, else copy one character. `fuel` bounds the number of scan steps;
`s.length` steps always suffice since each step consumes at least one
character of a non-empty `pat` match or one copied character. -/
def pyReplaceChars (fuel : Nat) (s pat repl : List Char) : List Char :=
  match fuel, s with
  | 0, s => s
  | _ + 1, [] => []
  | fuel + 1, c :: rest =>
    if pat.isPrefixOf (c :: rest) then
      repl ++ pyReplaceChars fuel ((c :: rest).drop pat.length) pat repl
    else
      c :: pyReplaceChars fuel rest pat repl

/-- Python `s.replace(pat, repl)` for a non-empty `pat` (every marker
pattern `[i]` is non-empty): replace every non-overlapping occurrence of
`pat` in `s`, scanning left to right. An empty `pat` is returned
unchanged (never exercised by `insert_citation_markers`). -/
def pyReplace (s pat repl : String) : String :=
  if pat.data.isEmpty then s
  else ⟨pyReplaceChars s.data.length s.data pat.data repl.data⟩

/-- Python `pat in s` substring test on character lists. -/
def containsSubChars (pat : List Char) : List Char → Bool
  | [] => pat.isEmpty
  | c :: rest => pat.isPrefixOf (c :: rest) || containsSubChars pat rest

/-- Python `pat in s` substring test. -/
def pyContainsSub (s pat : String) : Bool :=
  containsSubChars pat.data s.data

/-- The loop body of `insert_citation_markers` (utils.py lines 66-75):
for each source, numbered from `i`, replace occurrences of the marker
`[i]` by a markdown link built from the source's title and url. -/
def citeLoop (t : String) (sources : List SourceDict) (i : Nat) : String :=
  match sources with
  | [] => t
  | s :: rest =>
    let title := s.title.getD ("Source " ++ toString i)
    let url := s.url.getD "#"
    let marker := "[" ++ toString i ++ "]"
    let link := "[" ++ title ++ "](" ++ url ++ ")"
    let t2 := if pyContainsSub t marker then pyReplace t marker link else t
    citeLoop t2 rest (i + 1)

/-- `insert_citation_markers` (utils.py lines 46-77): returns `text`
unchanged when `sources` is empty, otherwise runs the replacement loop
with source numbering starting at 1. -/
def insert_citation_markers (text : String) (sources : List SourceDict) : String :=
  if sources.isEmpty then text
  else citeLoop text sources 1

/-- One raw record of the search API's `organic_results` array; each of
the keys read by `search_web` may be absent (`result.get(k, "")`). -/
structure RawResult where
  title : Option String := none
  link : Option String := none
  snippet : Option String := none
deriving DecidableEq, Repr

/-- The outcome of the HTTP round-trip inside `search_web`: either some
exception was raised (connection error, non-2xx status, bad JSON — all
caught by the `except` clause), or a JSON object was obtained, whose
`organic_results` key may be absent. -/
inductive SearchApiOutcome where
  | failure (msg : String)
  | success (organic_results : Option (List RawResult))
deriving DecidableEq, Repr

/-- One extracted search result `\x7burl, title, snippet\x7d` as built by
`search_web` (graph.py lines 54-58), every field defaulted to `""`. -/
structure SearchResult where
  title : String
  url : String
  snippet : String
deriving DecidableEq, Repr

/-- The `num` parameter sent to the search API (graph.py line 42):
`min(num_results, 10)`. -/
def search_request_num (num_results : Nat) : Nat :=
  min num_results 10

/-- `search_web` (graph.py lines 33-64): on any exception return `[]`;
otherwise take at most `num_results` entries of `organic_results`
(absent key gives `[]`) and project out title/link/snippet. -/
def search_web (outcome : SearchApiOutcome) (num_results : Nat) :
    List SearchResult :=
  match outcome with
  | .failure _ => []
  | .success none => []
  | .success (some rs) =>
    (rs.take num_results).map fun r =>
      { title := r.title.getD "", url := r.link.getD "", snippet := r.snippet.getD "" }

/-- The partial state update returned by one `web_research` invocation
(graph.py lines 109-114 and 160-164): a list of gathered sources, a
singleton list holding the query just ran, and a singleton list holding
the produced finding text. -/
structure WebOutput where
  sources_gathered : List SourceDict
  search_query : List String
  web_research_result : List String
deriving DecidableEq, Repr

/-- `web_research` (graph.py lines 102-164). The search API round-trip is
`searchApi`; `summarize` is the outcome of the `llm.invoke` summarization
call (`Except.error e` models a raised exception, which this function does
not catch, so it propagates as `Except.error`). On empty search results
the degraded no-results update is returned; otherwise the sources list is
built in order and the summary text gets citation markers substituted. -/
def web_research (query : String) (searchApi : SearchApiOutcome)
    (summarize : Except String String) : Except String WebOutput :=
  let search_results := search_web searchApi 8
  if search_results.isEmpty then
    .ok { sources_gathered := []
          search_query := [query]
          web_research_result := ["No search results found for: " ++ query] }
  else
    match summarize with
    | .error e => .error e
    | .ok response_text =>
      let sources := search_results.map fun r =>
        { url := some r.url, title := some r.title, snippet := some r.snippet :
          SourceDict }
      .ok { sources_gathered := sources
            search_query := [query]
            web_research_result := [insert_citation_markers response_text sources] }

/-- A `Send("web_research", ...)` message: the query string and the
integer dispatch index `id`. -/
structure SendMsg where
  search_query : String
  id : Nat
deriving DecidableEq, Repr

/-- `continue_to_web_research` (graph.py lines 94-99): one send per
initial query, `id` = its `enumerate` position starting at 0. -/
def continue_to_web_research (search_query : List String) : List SendMsg :=
  search_query.enum.map fun p => { search_query := p.2, id := p.1 }

/-- The fields of `ReflectionState` consumed by `evaluate_research`
(graph.py lines 188-194). -/
structure ReflectionState where
  is_sufficient : Bool
  follow_up_queries : List String
  research_loop_count : Nat
  number_of_ran_queries : Nat
deriving DecidableEq, Repr

/-- Python `state.get("max_research_loops") or configurable.max_research_loops`
(graph.py line 200): an absent key or a falsy value (0) falls back to the
configured default. -/
def pyOrNat (stateVal : Option Nat) (configVal : Nat) : Nat :=
  match stateVal with
  | none => configVal
  | some v => if v = 0 then configVal else v

/-- The list-comprehension of follow-up sends (graph.py lines 206-215):
`id` = `number_of_ran_queries + idx` with `idx` from `enumerate`. -/
def followup_sends (number_of_ran_queries : Nat) (follow_up_queries : List String) :
    List SendMsg :=
  follow_up_queries.enum.map fun p =>
    { search_query := p.2, id := number_of_ran_queries + p.1 }

/-- The routing decision of `evaluate_research`: either the string
`"finalize_answer"` or a list of `Send` objects. -/
inductive Route where
  | finalize
  | research (sends : List SendMsg)
deriving DecidableEq, Repr

/-- `evaluate_research` (graph.py lines 197-215): finalize when
`is_sufficient` or `research_loop_count >= max_research_loops`
(the effective maximum resolved by Python `or`); otherwise emit one
follow-up send per follow-up query. -/
def evaluate_research (s : ReflectionState) (stateMax : Option Nat)
    (configMax : Nat) : Route :=
  let max_research_loops := pyOrNat stateMax configMax
  if s.is_sufficient || decide (max_research_loops ≤ s.research_loop_count) then
    .finalize
  else
    .research (followup_sends s.number_of_ran_queries s.follow_up_queries)

/-- The increment performed by `reflection` (graph.py line 170):
`state.get("research_loop_count", 0) + 1`. -/
def reflection_loop_count (research_loop_count : Option Nat) : Nat :=
  research_loop_count.getD 0 + 1

/-- The source-collection loop of `finalize_answer` (graph.py lines
239-244): iterate `sources_gathered`, `extend` with list items and
`append` non-list items, preserving order and duplicates. -/
inductive SourcesItem where
  | single (s : SourceDict)
  | list (xs : List SourceDict)
deriving DecidableEq, Repr

/-- `all_sources` as built by `finalize_answer` (graph.py lines 238-244). -/
def collect_all_sources : List SourcesItem → List SourceDict
  | [] => []
  | .list xs :: rest => xs ++ collect_all_sources rest
  | .single s :: rest => s :: collect_all_sources rest

/-- Whether a routing decision is the `"finalize_answer"` edge. -/
def route_finalizes : Route → Bool
  | .finalize => true
  | .research _ => false

/-- The structured verdict each round's `reflection` call obtains from the
model (the fields of `Reflection` consumed by the control flow). -/
structure ReflectionVerdict where
  is_sufficient : Bool
  follow_up_queries : List String
deriving DecidableEq, Repr

/-- The `reflection` → `evaluate_research` cycle of the graph (graph.py
lines 167-215 and the edges at lines 262-263), driven by the per-round
verdicts `verdict`: entered with the loop counter at `count`, `reflection`
increments it, and `evaluate_research` either routes to `finalize_answer`
(returning the final loop count) or dispatches follow-up research and
cycles again. `configMax` is `configurable.max_research_loops`; the state
carries no `max_research_loops` key (`none`), as in `run_agent.py`. -/
def research_loop (verdict : Nat → ReflectionVerdict) (configMax : Nat)
    (count : Nat) : Nat :=
  if h : route_finalizes (evaluate_research
      { is_sufficient := (verdict (reflection_loop_count (some count))).is_sufficient
        follow_up_queries :=
          (verdict (reflection_loop_count (some count))).follow_up_queries
        research_loop_count := reflection_loop_count (some count)
        number_of_ran_queries := 0 } none configMax) then
    reflection_loop_count (some count)
  else research_loop verdict configMax (reflection_loop_count (some count))
termination_by configMax - count
decreasing_by
  simp only [reflection_loop_count, Option.getD, Bool.not_eq_true] at h ⊢
  by_cases hs : ((verdict (count + 1)).is_sufficient
      || decide (configMax ≤ count + 1)) = true
  · simp [route_finalizes, evaluate_research, pyOrNat, hs] at h
  · simp only [Bool.or_eq_true, decide_eq_true_eq, not_or] at hs
    omega

/-- Modelled from the spec: the running value of `number_of_ran_queries`
(graph.py line 193, `len(state["search_query"])`) across rounds. The
accumulation itself lives in the state reducers of `agent/state.py`,
which is not in the sources; per the spec, indices are "assigned
sequentially starting at the count of previously-dispatched queries", and
each completed `web_research` contributes exactly one `search_query`
entry, so the count before each follow-up round is the total number of
queries dispatched so far. This folds `followup_sends` over successive
rounds with that running count. -/
def followup_rounds (nRan : Nat) : List (List String) → List SendMsg
  | [] => []
  | qs :: rest => followup_sends nRan qs ++ followup_rounds (nRan + qs.length) rest

/-- All sends dispatched over a whole run: the initial batch from
`continue_to_web_research`, then each round's follow-up batch from
`evaluate_research`, with `number_of_ran_queries` starting at the size of
the initial batch. -/
def run_dispatches (initial : List String) (followups : List (List String)) :
    List SendMsg :=
  continue_to_web_research initial ++ followup_rounds initial.length followups

/-- The characters of the inline marker `[i]`. -/
def markerChars (i : Nat) : List Char :=
  ("[" ++ toString i ++ "]").data

/-- The characters of the markdown link substituted for marker `[i]`,
built from the i-th source exactly as in utils.py lines 67-72. -/
def linkChars (s : SourceDict) (i : Nat) : List Char :=
  ("[" ++ s.title.getD ("Source " ++ toString i) ++ "](" ++ s.url.getD "#" ++ ")").data

/-- First source (1-based position `i` onward) whose marker `[i]` starts
at the head of `s`; at most one marker can match at a given position. -/
def firstMarkerAt (sources : List SourceDict) (i : Nat) (s : List Char) :
    Option (Nat × SourceDict) :=
  match sources with
  | [] => none
  | src :: rest =>
    if (markerChars i).isPrefixOf s then some (i, src)
    else firstMarkerAt rest (i + 1) s

/-- One-pass marker-substitution scan: at each position, an inline marker
`[i]` with `1 ≤ i ≤ n` is replaced by the i-th link and skipped over; any
other character — including markers with no matching source index — is
copied unchanged. `fuel` bounds scan steps; the text length suffices. -/
def specScan (fuel : Nat) (sources : List SourceDict) (s : List Char) : List Char :=
  match fuel, s with
  | 0, s => s
  | _ + 1, [] => []
  | fuel + 1, c :: rest =>
    match firstMarkerAt sources 1 (c :: rest) with
    | some (i, src) => linkChars src i ++ specScan fuel sources ((c :: rest).drop (markerChars i).length)
    | none => c :: specScan fuel sources rest

/-- Follows the spec's words (spec §4.2 step (d) and §8): "replacing every
inline marker of the form `[i]` with a markdown link to the i-th source's
title and URL — markers with no matching source index are left
untouched"; stated as a single simultaneous pass over the input text, for
comparison with the sequential `insert_citation_markers`. -/
def spec_insert_citation_markers (text : String) (sources : List SourceDict) : String :=
  ⟨specScan text.data.length sources text.data⟩

/-- The sources contributed by one `sources_gathered` entry. -/
def itemSources : SourcesItem → List SourceDict
  | .single s => [s]
  | .list xs => xs

/-- Modelled from the spec: the Evidence Store fan-in for finding texts.
The `web_research_result` channel of `OverallState` concatenates each
completed task's returned list (the `operator.add` reducer lives in
`agent/state.py`, which is not in the sources); per the spec, findings
are appended per completed task, in completion order. -/
def merged_results (outs : List WebOutput) : List String :=
  (outs.map WebOutput.web_research_result).flatten

/-- Modelled from the spec: the Evidence Store fan-in for ran queries,
concatenating each completed task's returned `search_query` list (same
reducer situation as `merged_results`). -/
def merged_queries (outs : List WebOutput) : List String :=
  (outs.map WebOutput.search_query).flatten

/-- A verdict stream whose every round is insufficient (the
budget-exhaustion scenario's evaluator). -/
def alwaysInsufficient : Nat → ReflectionVerdict :=
  fun k => { is_sufficient := false, follow_up_queries := ["follow-up " ++ toString k] }

/-- Concrete source dict with url "a" (and no other keys). -/
def srcA : SourceDict := { url := some "a" }

/-- Concrete source dict with url "b" (and no other keys). -/
def srcB : SourceDict := { url := some "b" }

/-- Concrete source dict: title "X", url "u1". -/
def srcX : SourceDict := { title := some "X", url := some "u1" }

/-- Concrete source dict: title "Y", url "u2". -/
def srcY : SourceDict := { title := some "Y", url := some "u2" }

/-- Concrete source dict whose title is the digit string "2", url "u1". -/
def srcTwo : SourceDict := { title := some "2", url := some "u1" }

/-- Concrete raw search-API record. -/
def rawT : RawResult := { title := some "T", link := some "u", snippet := some "s" }

end Agent

deriving instance DecidableEq for Except

namespace Agent

/-! Helper lemmas shared by the claim theorems. -/

theorem search_web_length_le (api : SearchApiOutcome) (n : Nat) :
    (search_web api n).length ≤ n := by
  cases api with
  | failure m => simp [search_web]
  | success o =>
    cases o with
    | none => simp [search_web]
    | some rs =>
      simp only [search_web, List.length_map, List.length_take]
      omega

theorem web_research_ok_spec (q : String) (api : SearchApiOutcome)
    (summ : Except String String) (out : WebOutput)
    (h : web_research q api summ = Except.ok out) :
    out.web_research_result.length = 1 ∧ out.search_query.length = 1 ∧
      out.sources_gathered.length ≤ 8 := by
  unfold web_research at h
  by_cases he : (search_web api 8).isEmpty
  · simp only [he, if_true] at h
    cases h
    simp
  · simp only [he, Bool.false_eq_true, if_false] at h
    cases summ with
    | error e => cases h
    | ok t =>
      cases h
      refine ⟨rfl, rfl, ?_⟩
      simpa using search_web_length_le api 8

/-- C10: for every text, `insert_citation_markers` applied with an empty
sources list is the identity, returning the input text unchanged. -/
theorem insert_citation_markers_empty_sources (text : String) :
    insert_citation_markers text [] = text := by
  simp [insert_citation_markers]

/-- C4 counterexample: `finalize_answer` performs no URL-deduplication.
On gathered sources with urls a, b, a its collection loop returns all
three entries — two entries carry url "a", not exactly one, and the
result differs from the claimed first-seen-order list [a, b]. -/
theorem collect_all_sources_no_dedup_cex :
    collect_all_sources [.single srcA, .single srcB, .single srcA] =
      [srcA, srcB, srcA] ∧
    List.countP (fun s => s.url == some "a")
      (collect_all_sources [.single srcA, .single srcB, .single srcA]) = 2 ∧
    collect_all_sources [.single srcA, .single srcB, .single srcA] ≠ [srcA, srcB] := by
  refine ⟨by decide, by decide, by decide⟩

/-- C4 amended: `finalize_answer` flattens all findings' sources in the
order findings were produced, preserving every occurrence — duplicate
URLs included; it performs no deduplication, so [a, b, a] yields
[a, b, a]. -/
theorem collect_all_sources_flattens (items : List SourcesItem) :
    collect_all_sources items = (items.map itemSources).flatten := by
  induction items with
  | nil => rfl
  | cons it rest ih =>
    cases it with
    | single s => simp [collect_all_sources, itemSources, ih]
    | list xs => simp [collect_all_sources, itemSources, ih]

/-- C5 counterexample: citation substitution is sequential substring
replacement, so text inserted by an earlier replacement is rewritten by a
later one. With source 1 titled "2", replacing `[1]` inserts the link
`[2](u1)`, whose leading `[2]` the i = 2 pass then also replaces — the
output differs from the spec-described one-pass marker substitution at
this input. -/
theorem insert_citation_markers_cascade_cex :
    insert_citation_markers "See [1] and [2]." [srcTwo, srcY] =
      "See [Y](u2)(u1) and [Y](u2)." ∧
    spec_insert_citation_markers "See [1] and [2]." [srcTwo, srcY] =
      "See [2](u1) and [Y](u2)." ∧
    insert_citation_markers "See [1] and [2]." [srcTwo, srcY] ≠
      spec_insert_citation_markers "See [1] and [2]." [srcTwo, srcY] := by
  refine ⟨by decide, by decide, by decide⟩

/-- C5 amended: `insert_citation_markers` applies plain substring
replacement sequentially for i = 1..n, so inserted link text is subject
to the later replacements; when no source's title or URL forms a later
marker — as in the spec's own examples — the described substitution
holds: "See [1] and [2]." with sources X/u1 and Y/u2 yields
"See [X](u1) and [Y](u2).", the unmatched marker [3] stays literal, and a
longer unmatched marker such as [12] also stays literal. -/
theorem insert_citation_markers_examples :
    insert_citation_markers "See [1] and [2]." [srcX, srcY] =
      "See [X](u1) and [Y](u2)." ∧
    insert_citation_markers "See [3]." [srcX, srcY] = "See [3]." ∧
    insert_citation_markers "See [12]." [srcX, srcY] = "See [12]." := by
  refine ⟨by decide, by decide, by decide⟩

/-- C2: `evaluate_research` checks sufficiency before the round budget: a
sufficient verdict routes to `finalize_answer` regardless of the loop
count and of any (discarded) follow-up queries in the state, and an
insufficient verdict whose loop count has reached the effective maximum
also routes to `finalize_answer` rather than erroring. -/
theorem sufficiency_before_budget (s : ReflectionState) (stateMax : Option Nat)
    (configMax : Nat) :
    (s.is_sufficient = true → evaluate_research s stateMax configMax = .finalize) ∧
    (pyOrNat stateMax configMax ≤ s.research_loop_count →
      evaluate_research s stateMax configMax = .finalize) := by
  constructor <;> intro h <;> simp [evaluate_research, h]

/-- C2 witness: a sufficient verdict at round 1 with budget 5 and a
leftover follow-up query finalizes; an insufficient verdict at round 2
with budget 2 finalizes. -/
theorem sufficiency_before_budget_witness :
    evaluate_research ⟨true, ["leftover"], 1, 3⟩ none 5 = .finalize ∧
    evaluate_research ⟨false, ["x"], 2, 3⟩ none 2 = .finalize :=
  ⟨(sufficiency_before_budget ⟨true, ["leftover"], 1, 3⟩ none 5).1 rfl,
   (sufficiency_before_budget ⟨false, ["x"], 2, 3⟩ none 2).2 (by decide)⟩

/-- C3 counterexample: a summarization-call failure inside the runner is
not caught — with one search result and a failing summarize call,
`web_research` propagates the error instead of degrading to an
empty-results finding, so the run aborts. -/
theorem summarize_failure_aborts_cex :
    web_research "q" (.success (some [rawT])) (.error "timeout") =
      .error "timeout" := by
  decide

/-- C3 amended: only a failure of the search call is recovered — it is
caught inside `search_web` (the message only printed), and the runner
degrades to the empty-results finding whose text is the generic
no-results placeholder, not tagged with the error message; a failure of
the summarization call, when search returned results, is not caught and
propagates, aborting the run. -/
theorem capability_failure_handling (q msg e : String)
    (summ : Except String String) (api : SearchApiOutcome) :
    web_research q (.failure msg) summ =
      .ok ⟨[], [q], ["No search results found for: " ++ q]⟩ ∧
    ((search_web api 8).isEmpty = false →
      web_research q api (.error e) = .error e) := by
  constructor
  · simp [web_research, search_web]
  · intro h
    simp [web_research, h]

/-- C3 amended witness: search failure "boom" degrades to the no-results
finding for query "qq"; a summarize failure with one search result
propagates as the error "x". -/
theorem capability_failure_handling_witness :
    web_research "qq" (.failure "boom") (.ok "t") =
      .ok ⟨[], ["qq"], ["No search results found for: qq"]⟩ ∧
    ((search_web (.success (some [rawT])) 8).isEmpty = false ∧
      web_research "qq" (.success (some [rawT])) (.error "x") = .error "x") :=
  ⟨(capability_failure_handling "qq" "boom" "x" (.ok "t") (.success (some [rawT]))).1,
   by decide,
   (capability_failure_handling "qq" "boom" "x" (.ok "t")
      (.success (some [rawT]))).2 (by decide)⟩

/-- C7: a query whose search returns zero results produces a finding with
an empty sources sequence and the non-empty placeholder text naming the
query, as a valid non-error outcome (`.ok`, the run continues). -/
theorem zero_results_valid_outcome (q : String) (api : SearchApiOutcome)
    (summ : Except String String) (h : search_web api 8 = []) :
    web_research q api summ =
      .ok ⟨[], [q], ["No search results found for: " ++ q]⟩ ∧
    ("No search results found for: " ++ q).data ≠ [] := by
  constructor
  · simp [web_research, h]
  · intro hd
    have hsplit : ("No search results found for: " ++ q).data =
        "No search results found for: ".data ++ q.data := rfl
    rw [hsplit] at hd
    have hleft : "No search results found for: ".data ≠ [] := by decide
    exact hleft (List.append_eq_nil.mp hd).1

/-- C7 witness: the query "capital of France" with a result-less search
response yields the `.ok` degraded finding with empty sources and the
non-empty placeholder. -/
theorem zero_results_valid_outcome_witness :
    search_web (.success none) 8 = [] ∧
    (web_research "capital of France" (.success none) (.ok "t") =
      .ok ⟨[], ["capital of France"],
           ["No search results found for: capital of France"]⟩ ∧
     ("No search results found for: " ++ "capital of France").data ≠ []) :=
  ⟨rfl, zero_results_valid_outcome "capital of France" (.success none) (.ok "t") rfl⟩

/-- C9: the runner requests `min(8, 10) = 8` results from the search
capability, and every finding's sources sequence has at most 8 entries,
on every branch of `web_research`. -/
theorem bounded_result_count :
    search_request_num 8 = 8 ∧
    ∀ (q : String) (api : SearchApiOutcome) (summ : Except String String)
      (out : WebOutput), web_research q api summ = Except.ok out →
        out.sources_gathered.length ≤ 8 := by
  refine ⟨rfl, fun q api summ out h => (web_research_ok_spec q api summ out h).2.2⟩

/-- C9 witness: a successful run of the runner on one search result has
at most 8 sources. -/
theorem bounded_result_count_witness :
    web_research "q" (.success (some [rawT])) (.ok "body [1] end") =
      Except.ok ⟨[⟨some "T", some "u", some "s"⟩], ["q"], ["body [T](u) end"]⟩ ∧
    (⟨[⟨some "T", some "u", some "s"⟩], ["q"], ["body [T](u) end"]⟩ :
        WebOutput).sources_gathered.length ≤ 8 :=
  ⟨by decide,
   bounded_result_count.2 "q" (.success (some [rawT])) (.ok "body [1] end")
     ⟨[⟨some "T", some "u", some "s"⟩], ["q"], ["body [T](u) end"]⟩ (by decide)⟩

/-- C8: no dispatched query is silently dropped — every completed
`web_research` invocation returns exactly one finding text and one ran
query, so after a round's fan-in the number of finding texts (and of ran
queries) appended to the evidence store equals the number of queries
dispatched in that round, degraded and zero-result findings included. -/
theorem no_silent_drops (runs : List (String × SearchApiOutcome × Except String String))
    (outs : List WebOutput)
    (h : List.Forall₂ (fun r o => web_research r.1 r.2.1 r.2.2 = Except.ok o) runs outs) :
    (merged_results outs).length = runs.length ∧
    (merged_queries outs).length = runs.length := by
  induction h with
  | nil => exact ⟨rfl, rfl⟩
  | cons hro hrest ih =>
    rename_i r o rs os
    obtain ⟨h1, h2, _⟩ := web_research_ok_spec r.1 r.2.1 r.2.2 o hro
    simp only [merged_results, merged_queries, List.map_cons, List.flatten_cons,
      List.length_append, List.length_cons] at ih ⊢
    omega

/-- C8 witness: a round of two dispatched queries — one summarized
normally, one degraded by a search failure — appends exactly two finding
texts and two ran queries. -/
theorem no_silent_drops_witness :
    (merged_results [⟨[⟨some "T", some "u", some "s"⟩], ["q1"], ["body [T](u) end"]⟩,
        ⟨[], ["q2"], ["No search results found for: q2"]⟩]).length = 2 ∧
    (merged_queries [⟨[⟨some "T", some "u", some "s"⟩], ["q1"], ["body [T](u) end"]⟩,
        ⟨[], ["q2"], ["No search results found for: q2"]⟩]).length = 2 :=
  no_silent_drops
    [("q1", .success (some [rawT]), .ok "body [1] end"), ("q2", .failure "err", .ok "x")]
    [⟨[⟨some "T", some "u", some "s"⟩], ["q1"], ["body [T](u) end"]⟩,
     ⟨[], ["q2"], ["No search results found for: q2"]⟩]
    (List.Forall₂.cons (by decide) (List.Forall₂.cons (by decide) List.Forall₂.nil))

theorem enumFrom_map_add (n : Nat) (qs : List String) :
    ∀ k, ((List.enumFrom k qs).map fun p => n + p.1) = List.range' (n + k) qs.length := by
  induction qs with
  | nil => intro k; rfl
  | cons q rest ih =>
    intro k
    simp only [List.enumFrom, List.map_cons, List.length_cons, List.range'_succ, ih (k + 1)]
    rw [Nat.add_assoc]

theorem continue_map_id (qs : List String) :
    (continue_to_web_research qs).map SendMsg.id = List.range' 0 qs.length := by
  simp only [continue_to_web_research, List.map_map]
  show qs.enum.map Prod.fst = List.range' 0 qs.length
  rw [List.enum_map_fst]
  exact List.range_eq_range' qs.length

theorem followup_sends_map_id (n : Nat) (qs : List String) :
    (followup_sends n qs).map SendMsg.id = List.range' n qs.length := by
  simp only [followup_sends, List.map_map]
  show ((List.enumFrom 0 qs).map fun p => n + p.1) = List.range' n qs.length
  have h := enumFrom_map_add n qs 0
  simpa using h

theorem followup_rounds_map_id (fs : List (List String)) :
    ∀ n, (followup_rounds n fs).map SendMsg.id =
      List.range' n ((fs.map List.length).sum) := by
  induction fs with
  | nil => intro n; rfl
  | cons qs rest ih =>
    intro n
    simp only [followup_rounds, List.map_append, followup_sends_map_id, ih (n + qs.length),
      List.map_cons, List.sum_cons]
    have h := List.range'_append n qs.length ((rest.map List.length).sum) 1
    rw [Nat.one_mul] at h
    rw [Nat.add_comm ((rest.map List.length).sum) qs.length] at h
    exact h

/-- C6: across an entire run the integer dispatch indices are exactly
0, 1, 2, ... in dispatch order — the initial batch from
`continue_to_web_research` takes 0..n-1 and every follow-up batch from
`evaluate_research` continues at the count of previously dispatched
queries — so the ids strictly increase and are never reused, even across
rounds. -/
theorem dispatch_ids_strictly_increasing (initial : List String)
    (followups : List (List String)) :
    (run_dispatches initial followups).map SendMsg.id =
      List.range ((run_dispatches initial followups).length) ∧
    (run_dispatches initial followups).Pairwise (fun a b => a.id < b.id) := by
  have hmap : (run_dispatches initial followups).map SendMsg.id =
      List.range' 0 (initial.length + (followups.map List.length).sum) := by
    simp only [run_dispatches, List.map_append, continue_map_id,
      followup_rounds_map_id]
    have h := List.range'_append 0 initial.length ((followups.map List.length).sum) 1
    rw [Nat.one_mul, Nat.zero_add] at h
    rw [Nat.add_comm ((followups.map List.length).sum) initial.length] at h
    exact h
  have hlen : (run_dispatches initial followups).length =
      initial.length + (followups.map List.length).sum := by
    have h := congrArg List.length hmap
    simpa using h
  refine ⟨?_, ?_⟩
  · rw [hmap, hlen, List.range_eq_range']
  · have hp : ((run_dispatches initial followups).map SendMsg.id).Pairwise (· < ·) := by
      rw [hmap]
      exact List.pairwise_lt_range' 0 _ 1
    rwa [List.pairwise_map] at hp

theorem route_finalizes_evaluate (s : ReflectionState) (sm : Option Nat) (cm : Nat) :
    route_finalizes (evaluate_research s sm cm) =
      (s.is_sufficient || decide (pyOrNat sm cm ≤ s.research_loop_count)) := by
  by_cases h : (s.is_sufficient || decide (pyOrNat sm cm ≤ s.research_loop_count)) = true
  · simp [evaluate_research, h, route_finalizes]
  · simp only [Bool.not_eq_true] at h
    simp [evaluate_research, h, route_finalizes]

theorem research_loop_le_aux (v : Nat → ReflectionVerdict) (cm : Nat) :
    ∀ d count, cm - count ≤ d → count < cm → research_loop v cm count ≤ cm := by
  intro d
  induction d with
  | zero => intro count h1 h2; omega
  | succ d ih =>
    intro count h1 h2
    rw [research_loop]
    split
    · simp only [reflection_loop_count, Option.getD_some]
      omega
    · rename_i hfin
      rw [route_finalizes_evaluate] at hfin
      simp only [pyOrNat, reflection_loop_count, Option.getD_some, Bool.or_eq_true,
        decide_eq_true_eq, not_or] at hfin
      simp only [reflection_loop_count, Option.getD_some]
      exact ih (count + 1) (by omega) (by omega)

theorem research_loop_exhausts_aux (v : Nat → ReflectionVerdict)
    (hv : ∀ k, (v k).is_sufficient = false) (cm : Nat) :
    ∀ d count, cm - count ≤ d → count < cm → research_loop v cm count = cm := by
  intro d
  induction d with
  | zero => intro count h1 h2; omega
  | succ d ih =>
    intro count h1 h2
    rw [research_loop]
    split
    · rename_i hfin
      rw [route_finalizes_evaluate] at hfin
      simp only [pyOrNat, reflection_loop_count, Option.getD_some, Bool.or_eq_true,
        decide_eq_true_eq, hv] at hfin
      simp only [reflection_loop_count, Option.getD_some]
      rcases hfin with hfin | hfin
      · cases hfin
      · omega
    · rename_i hfin
      rw [route_finalizes_evaluate] at hfin
      simp only [pyOrNat, reflection_loop_count, Option.getD_some, Bool.or_eq_true,
        decide_eq_true_eq, not_or] at hfin
      simp only [reflection_loop_count, Option.getD_some]
      exact ih (count + 1) (by omega) (by omega)

/-- C1: for every verdict stream, a run respects the round budget — the
final loop count never exceeds the configured maximum number of rounds —
and with an evaluator that always answers insufficient the loop still
finalizes, after exactly the maximum number of rounds. -/
theorem round_budget_enforced (v : Nat → ReflectionVerdict) (cm : Nat)
    (h : 1 ≤ cm) :
    research_loop v cm 0 ≤ cm ∧
    ((∀ k, (v k).is_sufficient = false) → research_loop v cm 0 = cm) :=
  ⟨research_loop_le_aux v cm cm 0 (by omega) (by omega),
   fun hv => research_loop_exhausts_aux v hv cm cm 0 (by omega) (by omega)⟩

/-- C1 witness: with the always-insufficient evaluator and a budget of 2
rounds, the loop count stays within 2 and the run finalizes after exactly
2 rounds. -/
theorem round_budget_enforced_witness :
    (1 ≤ 2 ∧ research_loop alwaysInsufficient 2 0 ≤ 2) ∧
    research_loop alwaysInsufficient 2 0 = 2 :=
  ⟨⟨by decide, (round_budget_enforced alwaysInsufficient 2 (by decide)).1⟩,
   (round_budget_enforced alwaysInsufficient 2 (by decide)).2 (fun _ => rfl)⟩

end Agent
